import Mathlib

/-!
# SSO authentication core: domain service and protocol adapter

A shallow embedding of `internal/services/auth/auth.go` (the domain service
`Auth` with `Login`, `RegisterNewUser`, `IsAdmin`) and of
`internal/grpc/auth/server.go` (the gRPC adapter `serverApi` with its three
handlers and the three request validators).

Conventions of the embedding

* A Go function returning `(T, error)` returns a pair `T × Option GoError`
  (`none` is the nil error), so that the value returned next to an error
  (the empty token, the zero user ID, `false`) is part of the model.
* Collaborators that perform I/O (storage ports, the salted hasher, the clock
  reading token issuer) are state passing: they take the state of the outside
  world `σ` and give back the next one. The order in which the Go code calls
  them is the order in which the state is threaded.
* `context.Context` is passed through unchanged by every function and is
  left out. Calls to the logger do not influence any returned value and are
  left out as well.
* `int64`, `int32` and `time.Duration` values are `Int`; no arithmetic is done
  on them by the code embedded here.
-/

namespace SSO

/-! ## Go error values -/

/-- The identity of an error value allocated by `errors.New`. Go compares such
values by pointer, so two sentinels with the same text are still different
errors. The four sentinels the program tests for are named; `other n` stands
for any other allocation. `auth.ErrUserExists` is allocated in `auth.go` line
40 and is therefore a different value from `storage.ErrUserExists`. -/
inductive ErrId where
  | authErrInvalidCredentials
  | authErrUserExists
  | storageErrUserNotFound
  | storageErrUserExists
  | other (n : Nat)
  deriving DecidableEq, Repr

/-- Error values: a leaf made by `errors.New` (its identity and its text), or
a `*fmt.wrapError` made by `fmt.Errorf` with a `%w` verb (its formatted text
and the error it unwraps to). -/
inductive GoError where
  | new (id : ErrId) (text : String)
  | wrap (msg : String) (err : GoError)
  deriving DecidableEq, Repr

/-- The method `Error()`. -/
def GoError.Error : GoError → String
  | .new _ text => text
  | .wrap msg _ => msg

/-- The method `Unwrap()`, `none` where the value has no such method. -/
def GoError.Unwrap : GoError → Option GoError
  | .new _ _ => none
  | .wrap _ err => some err

namespace errors

/-- The loop of `errors.Is` on a non-nil error: compare, else unwrap and
repeat. The target is always a package level `errors.New` sentinel in this
program, given by its identity; a freshly built wrapper is never equal to
it. -/
def is : GoError → ErrId → Bool
  | .new id _, target => id == target
  | .wrap _ err, target => is err target

/-- The function `errors.Is(err, target)` for a sentinel target; a nil `err`
is not the target. -/
def Is (err : Option GoError) (target : ErrId) : Bool :=
  match err with
  | none => false
  | some e => is e target

end errors

namespace fmt

/-- The call `fmt.Errorf("%s: %w", s, err)`: the text is `s`, a colon, a
blank and the text of `err`; the result unwraps to `err`. -/
def Errorf (s : String) (err : GoError) : GoError :=
  .wrap (s ++ ": " ++ err.Error) err

end fmt

/-! ## Collaborators that are not part of the sources -/

namespace storage

/-- Identity of the sentinel `storage.ErrUserNotFound`. -/
def ErrUserNotFound : ErrId := .storageErrUserNotFound

/-- Identity of the sentinel `storage.ErrUserExists`. -/
def ErrUserExists : ErrId := .storageErrUserExists

end storage

namespace models

/-- Modelled from the spec: the package `sso/internal/domain/models` is not
among the sources. Section 3 gives a user a numeric ID, an email and
password-hash bytes; `auth.go` reads the field `PassHash`. -/
structure User where
  ID : Int
  Email : String
  PassHash : List Nat
  deriving DecidableEq, Repr

/-- Modelled from the spec: the package `sso/internal/domain/models` is not
among the sources. Section 3 gives an app a numeric ID and the secret and
name material used for signing. -/
structure App where
  ID : Int
  Name : String
  Secret : String
  deriving DecidableEq, Repr

end models

/-- A Go call `f(ctx, ...) (T, error)` that may touch the outside world. -/
abbrev Call (σ : Type) (α : Type) : Type := σ → (α × Option GoError) × σ

namespace bcrypt

/-- The constant `bcrypt.DefaultCost`. -/
def DefaultCost : Int := 10

/-- The two functions of `golang.org/x/crypto/bcrypt` the service calls.
The library is outside the repository and is taken as a parameter.
`GenerateFromPassword` draws a salt, hence is state passing;
`CompareHashAndPassword` is a function of its two arguments and returns nil
exactly when the password verifies. Both receive `[]byte(password)`, given
here as the string itself. -/
structure Lib (σ : Type) where
  GenerateFromPassword : String → Int → Call σ (List Nat)
  CompareHashAndPassword : List Nat → String → Option GoError

end bcrypt

namespace jwt

/-- The function `jwt.NewToken(user, app, duration)` of `sso/internal/lib/jwt`,
which is not among the sources and is taken as a parameter. It reads the
clock, hence is state passing. -/
structure Lib (σ : Type) where
  NewToken : models.User → models.App → Int → Call σ String

end jwt

/-! ## The domain service, `internal/services/auth/auth.go` -/

namespace services.auth

/-- The interface `UserSaver`. -/
structure UserSaver (σ : Type) where
  SaveUser : String → List Nat → Call σ Int

/-- The interface `UserProvider`. -/
structure UserProvider (σ : Type) where
  User : String → Call σ models.User
  IsAdmin : Int → Call σ Bool

/-- The interface `AppProvider`. -/
structure AppProvider (σ : Type) where
  App : Int → Call σ models.App

/-- The struct `Auth` (without its logger), together with the two imported
libraries its methods call. -/
structure Auth (σ : Type) where
  userSaver : UserSaver σ
  userProvider : UserProvider σ
  appProvider : AppProvider σ
  tokenTTL : Int
  bcrypt : bcrypt.Lib σ
  jwt : jwt.Lib σ

/-- The sentinel `ErrInvalidCredentials`, line 39. -/
def ErrInvalidCredentials : GoError := .new .authErrInvalidCredentials "invalid credentials"

/-- The sentinel `ErrUserExists`, line 40. -/
def ErrUserExists : GoError := .new .authErrUserExists "user already exists"

/-- The method `Auth.Login`, lines 53 to 89. The first three failure returns
format the string literal `"op"`, the last two the constant `op`. -/
def Auth.Login {σ : Type} (a : Auth σ) (email : String) (password : String) (appID : Int) :
    Call σ String := fun s0 =>
  let op := "services.auth.Login"
  let ((user, err), s1) := a.userProvider.User email s0
  if errors.Is err storage.ErrUserNotFound then
    (("", some (fmt.Errorf "op" ErrInvalidCredentials)), s1)
  else
    match err with
    | some e => (("", some (fmt.Errorf "op" e)), s1)
    | none =>
      match a.bcrypt.CompareHashAndPassword user.PassHash password with
      | some _ => (("", some (fmt.Errorf "op" ErrInvalidCredentials)), s1)
      | none =>
        let ((app, err), s2) := a.appProvider.App appID s1
        match err with
        | some e => (("", some (fmt.Errorf op e)), s2)
        | none =>
          let ((token, err), s3) := a.jwt.NewToken user app a.tokenTTL s2
          match err with
          | some e => (("", some (fmt.Errorf op e)), s3)
          | none => ((token, none), s3)

/-- The method `Auth.RegisterNewUser`, lines 91 to 117. -/
def Auth.RegisterNewUser {σ : Type} (a : Auth σ) (email : String) (password : String) :
    Call σ Int := fun s0 =>
  let op := "services.auth.RegisterNewUser"
  let ((passHash, err), s1) := a.bcrypt.GenerateFromPassword password bcrypt.DefaultCost s0
  match err with
  | some e => ((0, some (fmt.Errorf op e)), s1)
  | none =>
    let ((userId, err), s2) := a.userSaver.SaveUser email passHash s1
    if errors.Is err storage.ErrUserExists then
      ((0, some (fmt.Errorf op ErrUserExists)), s2)
    else
      match err with
      | some e => ((0, some (fmt.Errorf op e)), s2)
      | none => ((userId, none), s2)

/-- The method `Auth.IsAdmin`, lines 119 to 139. -/
def Auth.IsAdmin {σ : Type} (a : Auth σ) (userId : Int) : Call σ Bool := fun s0 =>
  let op := "servies.auth.IsAdmin"
  let ((isAdmin, err), s1) := a.userProvider.IsAdmin userId s0
  if errors.Is err storage.ErrUserNotFound then
    ((false, some (fmt.Errorf op ErrInvalidCredentials)), s1)
  else
    match err with
    | some e => ((false, some (fmt.Errorf op e)), s1)
    | none => ((isAdmin, none), s1)

end services.auth

/-! ## The protocol adapter, `internal/grpc/auth/server.go` -/

namespace codes

/-- The status codes of `google.golang.org/grpc/codes`. -/
inductive Code where
  | OK | Canceled | Unknown | InvalidArgument | DeadlineExceeded | NotFound
  | AlreadyExists | PermissionDenied | ResourceExhausted | FailedPrecondition
  | Aborted | OutOfRange | Unimplemented | Internal | Unavailable | DataLoss
  | Unauthenticated
  deriving DecidableEq, Repr

end codes

namespace status

/-- The error value built by `status.Error(code, msg)`: what reaches the
caller on the wire is this code and this message. -/
structure Status where
  code : codes.Code
  msg : String
  deriving DecidableEq, Repr

/-- The call `status.Error(c, msg)` for a code other than `OK`. -/
def Error (c : codes.Code) (msg : String) : Status := ⟨c, msg⟩

end status

namespace ssov1

/-- The message `LoginRequest` of the generated package `ssov1`. -/
structure LoginRequest where
  Email : String
  Password : String
  AppId : Int
  deriving DecidableEq, Repr

/-- The message `LoginResponse`. -/
structure LoginResponse where
  Token : String
  deriving DecidableEq, Repr

/-- The message `RegisterRequest`. -/
structure RegisterRequest where
  Email : String
  Password : String
  deriving DecidableEq, Repr

/-- The message `RegisterResponse`. -/
structure RegisterResponse where
  UserId : Int
  deriving DecidableEq, Repr

/-- The message `IsAdminRequest`. -/
structure IsAdminRequest where
  UserId : Int
  deriving DecidableEq, Repr

/-- The message `IsAdminResponse`. -/
structure IsAdminResponse where
  IsAdmin : Bool
  deriving DecidableEq, Repr

end ssov1

namespace grpc.auth

/-- The interface `Auth` of the adapter, lines 15 to 19. -/
structure Auth (σ : Type) where
  Login : String → String → Int → Call σ String
  RegisterNewUser : String → String → Call σ Int
  IsAdmin : Int → Call σ Bool

/-- The struct `serverApi`. -/
structure serverApi (σ : Type) where
  auth : Auth σ

/-- The constant `emptyValue`. -/
def emptyValue : Int := 0

/-- The function `validateLogin`, lines 94 to 108. -/
def validateLogin (req : ssov1.LoginRequest) : Option status.Status :=
  if req.Email = "" then
    some (status.Error codes.Code.InvalidArgument "email is required")
  else if req.Password = "" then
    some (status.Error codes.Code.InvalidArgument "password is required")
  else if req.AppId = emptyValue then
    some (status.Error codes.Code.InvalidArgument "app is required")
  else
    none

/-- The function `validateRegister`, lines 110 to 120. -/
def validateRegister (req : ssov1.RegisterRequest) : Option status.Status :=
  if req.Email = "" then
    some (status.Error codes.Code.InvalidArgument "email is required")
  else if req.Password = "" then
    some (status.Error codes.Code.InvalidArgument "password is required")
  else
    none

/-- The function `validateIsAdmin`, lines 122 to 128. -/
def validateIsAdmin (req : ssov1.IsAdminRequest) : Option status.Status :=
  if req.UserId = 0 then
    some (status.Error codes.Code.InvalidArgument "user id is required")
  else
    none

/-- The handler `serverApi.Login`, lines 34 to 52. -/
def serverApi.Login {σ : Type} (s : serverApi σ) (req : ssov1.LoginRequest) (w0 : σ) :
    (Option ssov1.LoginResponse × Option status.Status) × σ :=
  match validateLogin req with
  | some err => ((none, some err), w0)
  | none =>
    let ((token, err), w1) := s.auth.Login req.Email req.Password req.AppId w0
    if errors.Is err ErrId.authErrInvalidCredentials then
      ((none, some (status.Error codes.Code.InvalidArgument "invalid credentialsv")), w1)
    else
      match err with
      | some _ => ((none, some (status.Error codes.Code.Internal "internal error ")), w1)
      | none => ((some ⟨token⟩, none), w1)

/-- The handler `serverApi.Register`, lines 54 to 72. -/
def serverApi.Register {σ : Type} (s : serverApi σ) (req : ssov1.RegisterRequest) (w0 : σ) :
    (Option ssov1.RegisterResponse × Option status.Status) × σ :=
  match validateRegister req with
  | some err => ((none, some err), w0)
  | none =>
    let ((userId, err), w1) := s.auth.RegisterNewUser req.Email req.Password w0
    if errors.Is err storage.ErrUserExists then
      ((none, some (status.Error codes.Code.AlreadyExists "user already exists")), w1)
    else
      match err with
      | some _ => ((none, some (status.Error codes.Code.Internal "internal error ")), w1)
      | none => ((some ⟨userId⟩, none), w1)

/-- The handler `serverApi.IsAdmin`, lines 74 to 92. -/
def serverApi.IsAdmin {σ : Type} (s : serverApi σ) (req : ssov1.IsAdminRequest) (w0 : σ) :
    (Option ssov1.IsAdminResponse × Option status.Status) × σ :=
  match validateIsAdmin req with
  | some err => ((none, some err), w0)
  | none =>
    let ((isAdmin, err), w1) := s.auth.IsAdmin req.UserId w0
    if errors.Is err storage.ErrUserNotFound then
      ((none, some (status.Error codes.Code.NotFound "user not found")), w1)
    else
      match err with
      | some _ => ((none, some (status.Error codes.Code.Internal "internal error ")), w1)
      | none => ((some ⟨isAdmin⟩, none), w1)

/-- The domain service used as the adapter's `Auth`: the value
`*services/auth.Auth` has the three methods of the interface. -/
def ofService {σ : Type} (a : services.auth.Auth σ) : Auth σ where
  Login := a.Login
  RegisterNewUser := a.RegisterNewUser
  IsAdmin := a.IsAdmin

end grpc.auth

/-! ## The contract of the collaborators assumed by the round trip property

The storage implementation is outside the sources. What the round trip of
registration and login needs from the collaborators is stated as predicates
on a service, and the calls made to the service after a registration are
given as a list of operations. -/

namespace services.auth

/-- In the state `w` the store holds `passHash` under `email`: the lookup of
`email` returns, with no error, a user with that email and that hash. -/
def Holds {σ : Type} (a : Auth σ) (email : String) (passHash : List Nat) (w : σ) : Prop :=
  ∃ (user : models.User) (w2 : σ),
    a.userProvider.User email w = ((user, none), w2) ∧
    user.Email = email ∧ user.PassHash = passHash

/-- A successful `SaveUser` stores the hash under the email, and `User` on the
state it leaves returns that record. -/
def StoresUsers {σ : Type} (a : Auth σ) : Prop :=
  ∀ (email : String) (passHash : List Nat) (uid : Int) (w w1 : σ),
    a.userSaver.SaveUser email passHash w = ((uid, none), w1) →
    Holds a email passHash w1

/-- What the store holds under an email stays there: no call of a
collaborator, whatever its arguments and its outcome, removes or replaces
it. -/
def KeepsUsers {σ : Type} (a : Auth σ) : Prop :=
  ∀ (email : String) (passHash : List Nat) (w : σ), Holds a email passHash w →
    (∀ (e : String) (h : List Nat), Holds a email passHash (a.userSaver.SaveUser e h w).2) ∧
    (∀ e : String, Holds a email passHash (a.userProvider.User e w).2) ∧
    (∀ u : Int, Holds a email passHash (a.userProvider.IsAdmin u w).2) ∧
    (∀ i : Int, Holds a email passHash (a.appProvider.App i w).2) ∧
    (∀ (p : String) (c : Int), Holds a email passHash (a.bcrypt.GenerateFromPassword p c w).2) ∧
    (∀ (u : models.User) (p : models.App) (t : Int),
      Holds a email passHash (a.jwt.NewToken u p t w).2)

/-- Verifying a hash against the password that produced it succeeds. Nothing
is asked about other passwords. -/
def HasherComplete {σ : Type} (a : Auth σ) : Prop :=
  ∀ (password : String) (cost : Int) (passHash : List Nat) (w w1 : σ),
    a.bcrypt.GenerateFromPassword password cost w = ((passHash, none), w1) →
    a.bcrypt.CompareHashAndPassword passHash password = none

/-- The `AppProvider` finds the app `appID` in every state. -/
def FindsApp {σ : Type} (a : Auth σ) (appID : Int) : Prop :=
  ∀ w : σ, ∃ (app : models.App) (w1 : σ), a.appProvider.App appID w = ((app, none), w1)

/-- A call of one of the three methods of the service. -/
inductive Op where
  | login (email : String) (password : String) (appID : Int)
  | register (email : String) (password : String)
  | isAdmin (userId : Int)
  deriving DecidableEq, Repr

/-- The state of the world after one call of the service. -/
def step {σ : Type} (a : Auth σ) (op : Op) (w : σ) : σ :=
  match op with
  | .login email password appID => (a.Login email password appID w).2
  | .register email password => (a.RegisterNewUser email password w).2
  | .isAdmin userId => (a.IsAdmin userId w).2

/-- The state of the world after a sequence of calls of the service. -/
def run {σ : Type} (a : Auth σ) : List Op → σ → σ
  | [], w => w
  | op :: ops, w => run a ops (step a op w)

end services.auth

/-! ## An executable in-memory instance

A small world with a user table, an admin list and a counter of
the calls made to the storage ports; a hasher and a token issuer that can be
evaluated. It is used to run the embedded code on concrete requests. -/

namespace fixture

/-- The state of the outside world of the instance. -/
structure World where
  users : List models.User
  admins : List Int
  calls : Nat
  deriving DecidableEq, Repr

/-- The app table of the instance: one app with ID 1. It is not changed by
any operation of the service. -/
def apps : List models.App := [⟨1, "test", "secret"⟩]

/-- What the store returns for a missing user: a wrapper of
`storage.ErrUserNotFound`. -/
def notFound : GoError :=
  .wrap "storage.User: user not found" (.new storage.ErrUserNotFound "user not found")

/-- What the store returns for a taken email: a wrapper of
`storage.ErrUserExists`. -/
def alreadyExists : GoError :=
  .wrap "storage.SaveUser: user already exists" (.new storage.ErrUserExists "user already exists")

/-- An I/O failure of the store. -/
def diskFailure : GoError := .new (.other 7) "disk I/O error"

/-- Another failure of the store, with another cause and text. -/
def lockTimeout : GoError :=
  .wrap "storage: database is locked" (.new (.other 8) "database is locked")

/-- The port `SaveUser`: refuse a taken email, else give the next ID. -/
def SaveUser (email : String) (passHash : List Nat) : Call World Int := fun w =>
  if w.users.any (fun u => u.Email == email) then
    ((0, some alreadyExists), { w with calls := w.calls + 1 })
  else
    ((w.users.length + 1, none),
      { w with users := ⟨w.users.length + 1, email, passHash⟩ :: w.users, calls := w.calls + 1 })

/-- The port `User`: the record stored under the email. -/
def User (email : String) : Call World models.User := fun w =>
  match w.users.find? (fun u => u.Email == email) with
  | some u => ((u, none), { w with calls := w.calls + 1 })
  | none => ((⟨0, "", []⟩, some notFound), { w with calls := w.calls + 1 })

/-- The port `IsAdmin`: the flag of a stored user. -/
def IsAdmin (userId : Int) : Call World Bool := fun w =>
  if w.users.any (fun u => u.ID == userId) then
    ((w.admins.contains userId, none), { w with calls := w.calls + 1 })
  else
    ((false, some notFound), { w with calls := w.calls + 1 })

/-- The port `App`: the app stored under the ID. -/
def App (appId : Int) : Call World models.App := fun w =>
  match apps.find? (fun p => p.ID == appId) with
  | some p => ((p, none), { w with calls := w.calls + 1 })
  | none => ((⟨0, "", ""⟩, some (.new (.other 1) "app not found")), { w with calls := w.calls + 1 })

/-- The UTF-8 encoding of a code point. -/
def utf8 (c : Nat) : List Nat :=
  if c < 128 then [c]
  else if c < 2048 then [192 + c / 64, 128 + c % 64]
  else if c < 65536 then [224 + c / 4096, 128 + c / 64 % 64, 128 + c % 64]
  else [240 + c / 262144, 128 + c / 4096 % 64, 128 + c / 64 % 64, 128 + c % 64]

/-- The bytes `[]byte(password)`. -/
def bytes (password : String) : List Nat :=
  (password.toList.map (fun c => utf8 c.toNat)).flatten

/-- The key bcrypt works on: the password bytes followed by a NUL byte. -/
def key (password : String) : List Nat := bytes password ++ [0]

/-- A stand-in for the hash that keeps the key preparation of bcrypt: the key
is read cyclically for 72 bytes, and the hash is a function of these 72 bytes
only (here the bytes themselves, without salt and without the Blowfish
rounds). -/
def hash (password : String) : List Nat :=
  (List.range 72).map (fun i => (key password).getD (i % (key password).length) 0)

/-- The error `bcrypt.ErrMismatchedHashAndPassword`. -/
def mismatch : GoError :=
  .new (.other 2) "crypto/bcrypt: hashedPassword is not the hash of the given password"

/-- The error `bcrypt.ErrPasswordTooLong`. -/
def tooLong : GoError := .new (.other 3) "bcrypt: password length exceeds 72 bytes"

/-- A stand-in for the two bcrypt functions: hashing refuses a password of
more than 72 bytes, and verifying compares the hash with the hash of the
password. -/
def hasher : bcrypt.Lib World where
  GenerateFromPassword := fun password _ w =>
    if 72 < (bytes password).length then (([], some tooLong), w)
    else ((hash password, none), w)
  CompareHashAndPassword := fun passHash password =>
    if passHash = hash password then none else some mismatch

/-- A stand-in for the token issuer: the token spells out what it binds. -/
def issuer : jwt.Lib World where
  NewToken := fun user app _ w => (("jwt." ++ user.Email ++ "." ++ app.Name, none), w)

/-- The domain service over the in-memory world. -/
def svc : services.auth.Auth World where
  userSaver := ⟨SaveUser⟩
  userProvider := ⟨User, IsAdmin⟩
  appProvider := ⟨App⟩
  tokenTTL := 3600
  bcrypt := hasher
  jwt := issuer

/-- The same service over a store whose `SaveUser` always fails with `e`. -/
def svcSaveFails (e : GoError) : services.auth.Auth World :=
  { svc with userSaver := ⟨fun _ _ w => ((0, some e), { w with calls := w.calls + 1 })⟩ }

/-- The same service over a store whose `IsAdmin` always fails with `e`. -/
def svcIsAdminFails (e : GoError) : services.auth.Auth World :=
  { svc with userProvider := ⟨User, fun _ w => ((false, some e), { w with calls := w.calls + 1 })⟩ }

/-- The same service over a store whose `User` always fails with `e`. -/
def svcUserFails (e : GoError) : services.auth.Auth World :=
  { svc with userProvider := ⟨fun _ w => ((⟨0, "", []⟩, some e), { w with calls := w.calls + 1 }), IsAdmin⟩ }

/-- The adapter over the in-memory domain service. -/
def api : grpc.auth.serverApi World := ⟨grpc.auth.ofService svc⟩

/-- An empty user table, no admin, no call made yet. -/
def w0 : World := ⟨[], [], 0⟩

/-- The world after registering `a@x.com` with password `pw123`. -/
def w1 : World := (svc.RegisterNewUser "a@x.com" "pw123" w0).2

end fixture

/-! ## Facts about error values -/

/-- Wrapping with `fmt.Errorf` keeps the answer of `errors.Is`. -/
theorem is_Errorf (s : String) (e : GoError) (target : ErrId) :
    errors.Is (some (fmt.Errorf s e)) target = errors.Is (some e) target := rfl

/-- The text of a wrapped error is the annotation, a colon, a blank and the
text of the cause. -/
theorem Error_Errorf (s : String) (e : GoError) :
    (fmt.Errorf s e).Error = s ++ ": " ++ e.Error := rfl

/-- A wrapped error unwraps to its cause. -/
theorem Unwrap_Errorf (s : String) (e : GoError) : (fmt.Errorf s e).Unwrap = some e := rfl

/-- A nil error is no sentinel. -/
theorem is_none (target : ErrId) : errors.Is none target = false := rfl

/-! ## The paths of the domain service -/

namespace services.auth

/-- Path of `Login` at line 61: the lookup reports `storage.ErrUserNotFound`. -/
theorem Login_of_notFound {σ : Type} (a : Auth σ) (email password : String) (appID : Int)
    (w0 w1 : σ) (user : models.User) (err : Option GoError)
    (hU : a.userProvider.User email w0 = ((user, err), w1))
    (hNF : errors.Is err storage.ErrUserNotFound = true) :
    a.Login email password appID w0
      = (("", some (fmt.Errorf "op" ErrInvalidCredentials)), w1) := by
  simp [Auth.Login, hU, hNF]

/-- Path of `Login` at line 67: the lookup fails with another error. -/
theorem Login_of_lookupError {σ : Type} (a : Auth σ) (email password : String) (appID : Int)
    (w0 w1 : σ) (user : models.User) (e : GoError)
    (hU : a.userProvider.User email w0 = ((user, some e), w1))
    (hNF : errors.Is (some e) storage.ErrUserNotFound = false) :
    a.Login email password appID w0 = (("", some (fmt.Errorf "op" e)), w1) := by
  simp [Auth.Login, hU, hNF]

/-- Path of `Login` at line 71: the stored hash does not verify. -/
theorem Login_of_mismatch {σ : Type} (a : Auth σ) (email password : String) (appID : Int)
    (w0 w1 : σ) (user : models.User)
    (hU : a.userProvider.User email w0 = ((user, none), w1))
    (hBad : a.bcrypt.CompareHashAndPassword user.PassHash password ≠ none) :
    a.Login email password appID w0
      = (("", some (fmt.Errorf "op" ErrInvalidCredentials)), w1) := by
  cases hC : a.bcrypt.CompareHashAndPassword user.PassHash password with
  | none => exact absurd hC hBad
  | some e => simp [Auth.Login, hU, hC, errors.Is]

/-- Path of `Login` at line 77: the app lookup fails. -/
theorem Login_of_appError {σ : Type} (a : Auth σ) (email password : String) (appID : Int)
    (w0 w1 w2 : σ) (user : models.User) (app : models.App) (e : GoError)
    (hU : a.userProvider.User email w0 = ((user, none), w1))
    (hOk : a.bcrypt.CompareHashAndPassword user.PassHash password = none)
    (hA : a.appProvider.App appID w1 = ((app, some e), w2)) :
    a.Login email password appID w0
      = (("", some (fmt.Errorf "services.auth.Login" e)), w2) := by
  simp [Auth.Login, hU, hOk, hA, errors.Is]

/-- Path of `Login` at line 85: the token issuer fails. -/
theorem Login_of_tokenError {σ : Type} (a : Auth σ) (email password : String) (appID : Int)
    (w0 w1 w2 w3 : σ) (user : models.User) (app : models.App) (token : String) (e : GoError)
    (hU : a.userProvider.User email w0 = ((user, none), w1))
    (hOk : a.bcrypt.CompareHashAndPassword user.PassHash password = none)
    (hA : a.appProvider.App appID w1 = ((app, none), w2))
    (hT : a.jwt.NewToken user app a.tokenTTL w2 = ((token, some e), w3)) :
    a.Login email password appID w0
      = (("", some (fmt.Errorf "services.auth.Login" e)), w3) := by
  simp [Auth.Login, hU, hOk, hA, hT, errors.Is]

/-- Path of `Login` at line 88: the token is returned. -/
theorem Login_of_token {σ : Type} (a : Auth σ) (email password : String) (appID : Int)
    (w0 w1 w2 w3 : σ) (user : models.User) (app : models.App) (token : String)
    (hU : a.userProvider.User email w0 = ((user, none), w1))
    (hOk : a.bcrypt.CompareHashAndPassword user.PassHash password = none)
    (hA : a.appProvider.App appID w1 = ((app, none), w2))
    (hT : a.jwt.NewToken user app a.tokenTTL w2 = ((token, none), w3)) :
    a.Login email password appID w0 = ((token, none), w3) := by
  simp [Auth.Login, hU, hOk, hA, hT, errors.Is]

/-- Path of `RegisterNewUser` at line 101: hashing fails. -/
theorem RegisterNewUser_of_hashError {σ : Type} (a : Auth σ) (email password : String)
    (w0 w1 : σ) (passHash : List Nat) (e : GoError)
    (hG : a.bcrypt.GenerateFromPassword password bcrypt.DefaultCost w0 = ((passHash, some e), w1)) :
    a.RegisterNewUser email password w0
      = ((0, some (fmt.Errorf "services.auth.RegisterNewUser" e)), w1) := by
  simp [Auth.RegisterNewUser, hG]

/-- Path of `RegisterNewUser` at line 107: the store reports
`storage.ErrUserExists`. -/
theorem RegisterNewUser_of_exists {σ : Type} (a : Auth σ) (email password : String)
    (w0 w1 w2 : σ) (passHash : List Nat) (uid : Int) (err : Option GoError)
    (hG : a.bcrypt.GenerateFromPassword password bcrypt.DefaultCost w0 = ((passHash, none), w1))
    (hS : a.userSaver.SaveUser email passHash w1 = ((uid, err), w2))
    (hE : errors.Is err storage.ErrUserExists = true) :
    a.RegisterNewUser email password w0
      = ((0, some (fmt.Errorf "services.auth.RegisterNewUser" ErrUserExists)), w2) := by
  simp [Auth.RegisterNewUser, hG, hS, hE]

/-- Path of `RegisterNewUser` at line 113: the store fails with another
error. -/
theorem RegisterNewUser_of_saveError {σ : Type} (a : Auth σ) (email password : String)
    (w0 w1 w2 : σ) (passHash : List Nat) (uid : Int) (e : GoError)
    (hG : a.bcrypt.GenerateFromPassword password bcrypt.DefaultCost w0 = ((passHash, none), w1))
    (hS : a.userSaver.SaveUser email passHash w1 = ((uid, some e), w2))
    (hE : errors.Is (some e) storage.ErrUserExists = false) :
    a.RegisterNewUser email password w0
      = ((0, some (fmt.Errorf "services.auth.RegisterNewUser" e)), w2) := by
  simp [Auth.RegisterNewUser, hG, hS, hE]

/-- Path of `RegisterNewUser` at line 116: the new ID is returned. -/
theorem RegisterNewUser_of_saved {σ : Type} (a : Auth σ) (email password : String)
    (w0 w1 w2 : σ) (passHash : List Nat) (uid : Int)
    (hG : a.bcrypt.GenerateFromPassword password bcrypt.DefaultCost w0 = ((passHash, none), w1))
    (hS : a.userSaver.SaveUser email passHash w1 = ((uid, none), w2)) :
    a.RegisterNewUser email password w0 = ((uid, none), w2) := by
  simp [Auth.RegisterNewUser, hG, hS, errors.Is]

/-- Path of `IsAdmin` at line 129: the store reports
`storage.ErrUserNotFound`. -/
theorem IsAdmin_of_notFound {σ : Type} (a : Auth σ) (userId : Int)
    (w0 w1 : σ) (flag : Bool) (err : Option GoError)
    (hQ : a.userProvider.IsAdmin userId w0 = ((flag, err), w1))
    (hNF : errors.Is err storage.ErrUserNotFound = true) :
    a.IsAdmin userId w0
      = ((false, some (fmt.Errorf "servies.auth.IsAdmin" ErrInvalidCredentials)), w1) := by
  simp [Auth.IsAdmin, hQ, hNF]

/-- Path of `IsAdmin` at line 135: the store fails with another error. -/
theorem IsAdmin_of_error {σ : Type} (a : Auth σ) (userId : Int)
    (w0 w1 : σ) (flag : Bool) (e : GoError)
    (hQ : a.userProvider.IsAdmin userId w0 = ((flag, some e), w1))
    (hNF : errors.Is (some e) storage.ErrUserNotFound = false) :
    a.IsAdmin userId w0 = ((false, some (fmt.Errorf "servies.auth.IsAdmin" e)), w1) := by
  simp [Auth.IsAdmin, hQ, hNF]

/-- Path of `IsAdmin` at line 138: the flag is returned. -/
theorem IsAdmin_of_flag {σ : Type} (a : Auth σ) (userId : Int)
    (w0 w1 : σ) (flag : Bool)
    (hQ : a.userProvider.IsAdmin userId w0 = ((flag, none), w1)) :
    a.IsAdmin userId w0 = ((flag, none), w1) := by
  simp [Auth.IsAdmin, hQ, errors.Is]

end services.auth

/-! ## The paths of the protocol adapter -/

namespace grpc.auth

/-- A request that fails `validateLogin` is answered with that status, and
the world is the one the handler was entered with. -/
theorem Login_of_invalid {σ : Type} (s : serverApi σ) (req : ssov1.LoginRequest) (w0 : σ)
    (st : status.Status) (hv : validateLogin req = some st) :
    s.Login req w0 = ((none, some st), w0) := by
  simp [serverApi.Login, hv]

/-- Handler `Login`, line 42. -/
theorem Login_of_invalidCredentials {σ : Type} (s : serverApi σ) (req : ssov1.LoginRequest)
    (w0 w1 : σ) (token : String) (err : Option GoError)
    (hv : validateLogin req = none)
    (hL : s.auth.Login req.Email req.Password req.AppId w0 = ((token, err), w1))
    (hI : errors.Is err ErrId.authErrInvalidCredentials = true) :
    s.Login req w0
      = ((none, some ⟨codes.Code.InvalidArgument, "invalid credentialsv"⟩), w1) := by
  simp [serverApi.Login, hv, hL, hI, status.Error]

/-- Handler `Login`, line 46. -/
theorem Login_of_otherError {σ : Type} (s : serverApi σ) (req : ssov1.LoginRequest)
    (w0 w1 : σ) (token : String) (e : GoError)
    (hv : validateLogin req = none)
    (hL : s.auth.Login req.Email req.Password req.AppId w0 = ((token, some e), w1))
    (hI : errors.Is (some e) ErrId.authErrInvalidCredentials = false) :
    s.Login req w0 = ((none, some ⟨codes.Code.Internal, "internal error "⟩), w1) := by
  simp [serverApi.Login, hv, hL, hI, status.Error]

/-- A request that fails `validateRegister` is answered with that status. -/
theorem Register_of_invalid {σ : Type} (s : serverApi σ) (req : ssov1.RegisterRequest) (w0 : σ)
    (st : status.Status) (hv : validateRegister req = some st) :
    s.Register req w0 = ((none, some st), w0) := by
  simp [serverApi.Register, hv]

/-- Handler `Register`, line 66. -/
theorem Register_of_otherError {σ : Type} (s : serverApi σ) (req : ssov1.RegisterRequest)
    (w0 w1 : σ) (uid : Int) (e : GoError)
    (hv : validateRegister req = none)
    (hR : s.auth.RegisterNewUser req.Email req.Password w0 = ((uid, some e), w1))
    (hI : errors.Is (some e) storage.ErrUserExists = false) :
    s.Register req w0 = ((none, some ⟨codes.Code.Internal, "internal error "⟩), w1) := by
  simp [serverApi.Register, hv, hR, hI, status.Error]

/-- A request that fails `validateIsAdmin` is answered with that status. -/
theorem IsAdmin_of_invalid {σ : Type} (s : serverApi σ) (req : ssov1.IsAdminRequest) (w0 : σ)
    (st : status.Status) (hv : validateIsAdmin req = some st) :
    s.IsAdmin req w0 = ((none, some st), w0) := by
  simp [serverApi.IsAdmin, hv]

/-- Handler `IsAdmin`, line 86. -/
theorem IsAdmin_of_otherError {σ : Type} (s : serverApi σ) (req : ssov1.IsAdminRequest)
    (w0 w1 : σ) (flag : Bool) (e : GoError)
    (hv : validateIsAdmin req = none)
    (hQ : s.auth.IsAdmin req.UserId w0 = ((flag, some e), w1))
    (hI : errors.Is (some e) storage.ErrUserNotFound = false) :
    s.IsAdmin req w0 = ((none, some ⟨codes.Code.Internal, "internal error "⟩), w1) := by
  simp [serverApi.IsAdmin, hv, hQ, hI, status.Error]

end grpc.auth

/-! ## Inversion and annotation of the domain errors -/

namespace services.auth

/-- A registration that returns no error went through both steps: hashing
succeeded and `SaveUser` returned the ID with no error. -/
theorem RegisterNewUser_inv {σ : Type} (a : Auth σ) (email password : String)
    (w0 w1 : σ) (uid : Int)
    (hReg : a.RegisterNewUser email password w0 = ((uid, none), w1)) :
    ∃ (passHash : List Nat) (wg : σ),
      a.bcrypt.GenerateFromPassword password bcrypt.DefaultCost w0 = ((passHash, none), wg) ∧
      a.userSaver.SaveUser email passHash wg = ((uid, none), w1) := by
  rcases hG : a.bcrypt.GenerateFromPassword password bcrypt.DefaultCost w0 with ⟨⟨ph, eg⟩, wg⟩
  cases eg with
  | some e => simp [Auth.RegisterNewUser, hG] at hReg
  | none =>
    rcases hS : a.userSaver.SaveUser email ph wg with ⟨⟨u, es⟩, ws⟩
    cases es with
    | some e =>
      by_cases hE : errors.Is (some e) storage.ErrUserExists = true <;>
        simp [Auth.RegisterNewUser, hG, hS, hE] at hReg
    | none =>
      simp [Auth.RegisterNewUser, hG, hS, errors.Is] at hReg
      obtain ⟨rfl, rfl⟩ := hReg
      exact ⟨ph, wg, rfl, hS⟩

/-- Under `KeepsUsers`, a call of `Login` keeps what the store holds. -/
theorem Holds_Login {σ : Type} (a : Auth σ) (hK : KeepsUsers a)
    (em : String) (ph : List Nat) (w : σ) (h : Holds a em ph w)
    (email password : String) (appID : Int) :
    Holds a em ph (a.Login email password appID w).2 := by
  have h1 := (hK em ph w h).2.1 email
  rcases hU : a.userProvider.User email w with ⟨⟨user, err⟩, s1⟩
  rw [hU] at h1
  have h2 := (hK em ph s1 h1).2.2.2.1 appID
  rcases hA : a.appProvider.App appID s1 with ⟨⟨app, err2⟩, s2⟩
  rw [hA] at h2
  have h3 := (hK em ph s2 h2).2.2.2.2.2 user app a.tokenTTL
  rcases hT : a.jwt.NewToken user app a.tokenTTL s2 with ⟨⟨tok, err3⟩, s3⟩
  rw [hT] at h3
  simp only [Auth.Login, hU, hA, hT]
  repeat' split
  all_goals first | exact h1 | exact h2 | exact h3

/-- Under `KeepsUsers`, a call of `RegisterNewUser` keeps what the store
holds. -/
theorem Holds_RegisterNewUser {σ : Type} (a : Auth σ) (hK : KeepsUsers a)
    (em : String) (ph : List Nat) (w : σ) (h : Holds a em ph w)
    (email password : String) :
    Holds a em ph (a.RegisterNewUser email password w).2 := by
  have h1 := (hK em ph w h).2.2.2.2.1 password bcrypt.DefaultCost
  rcases hG : a.bcrypt.GenerateFromPassword password bcrypt.DefaultCost w with ⟨⟨hsh, err⟩, s1⟩
  rw [hG] at h1
  have h2 := (hK em ph s1 h1).1 email hsh
  rcases hS : a.userSaver.SaveUser email hsh s1 with ⟨⟨uid, err2⟩, s2⟩
  rw [hS] at h2
  simp only [Auth.RegisterNewUser, hG, hS]
  repeat' split
  all_goals first | exact h1 | exact h2

/-- Under `KeepsUsers`, a call of `IsAdmin` keeps what the store holds. -/
theorem Holds_IsAdmin {σ : Type} (a : Auth σ) (hK : KeepsUsers a)
    (em : String) (ph : List Nat) (w : σ) (h : Holds a em ph w) (userId : Int) :
    Holds a em ph (a.IsAdmin userId w).2 := by
  have h1 := (hK em ph w h).2.2.1 userId
  rcases hQ : a.userProvider.IsAdmin userId w with ⟨⟨flag, err⟩, s1⟩
  rw [hQ] at h1
  simp only [Auth.IsAdmin, hQ]
  repeat' split
  all_goals exact h1

/-- Under `KeepsUsers`, any sequence of calls of the service keeps what the
store holds. -/
theorem Holds_run {σ : Type} (a : Auth σ) (hK : KeepsUsers a)
    (em : String) (ph : List Nat) (ops : List Op) :
    ∀ w : σ, Holds a em ph w → Holds a em ph (run a ops w) := by
  induction ops with
  | nil => intro w h; exact h
  | cons op ops ih =>
    intro w h
    apply ih
    cases op with
    | login email password appID => exact Holds_Login a hK em ph w h email password appID
    | register email password => exact Holds_RegisterNewUser a hK em ph w h email password
    | isAdmin userId => exact Holds_IsAdmin a hK em ph w h userId

/-- `Login` reads the password only through `CompareHashAndPassword`: two
passwords that both verify against the stored hash give the same result. -/
theorem Login_of_verifies {σ : Type} (a : Auth σ) (email p q : String) (appID : Int)
    (w0 w1 : σ) (user : models.User)
    (hU : a.userProvider.User email w0 = ((user, none), w1))
    (hp : a.bcrypt.CompareHashAndPassword user.PassHash p = none)
    (hq : a.bcrypt.CompareHashAndPassword user.PassHash q = none) :
    a.Login email q appID w0 = a.Login email p appID w0 := by
  simp [Auth.Login, hU, hp, hq]

/-- Every error of `RegisterNewUser` is a cause annotated with the name of
the operation. -/
theorem RegisterNewUser_error_annotated {σ : Type} (a : Auth σ) (email password : String)
    (w0 : σ) (e : GoError) (h : (a.RegisterNewUser email password w0).1.2 = some e) :
    ∃ cause : GoError, e = fmt.Errorf "services.auth.RegisterNewUser" cause := by
  rcases hG : a.bcrypt.GenerateFromPassword password bcrypt.DefaultCost w0 with ⟨⟨ph, eg⟩, wg⟩
  cases eg with
  | some c =>
    rw [RegisterNewUser_of_hashError a email password w0 wg ph c hG] at h
    exact ⟨c, (Option.some.inj h).symm⟩
  | none =>
    rcases hS : a.userSaver.SaveUser email ph wg with ⟨⟨u, es⟩, ws⟩
    by_cases hE : errors.Is es storage.ErrUserExists = true
    · rw [RegisterNewUser_of_exists a email password w0 wg ws ph u es hG hS hE] at h
      exact ⟨ErrUserExists, (Option.some.inj h).symm⟩
    · cases es with
      | some c =>
        rw [RegisterNewUser_of_saveError a email password w0 wg ws ph u c hG hS
          (by simpa using hE)] at h
        exact ⟨c, (Option.some.inj h).symm⟩
      | none =>
        rw [RegisterNewUser_of_saved a email password w0 wg ws ph u hG hS] at h
        exact absurd h (by simp)

/-- Every error of `IsAdmin` is a cause annotated with the operation name
constant of `IsAdmin`. -/
theorem IsAdmin_error_annotated {σ : Type} (a : Auth σ) (userId : Int)
    (w0 : σ) (e : GoError) (h : (a.IsAdmin userId w0).1.2 = some e) :
    ∃ cause : GoError, e = fmt.Errorf "servies.auth.IsAdmin" cause := by
  rcases hQ : a.userProvider.IsAdmin userId w0 with ⟨⟨flag, err⟩, w1⟩
  by_cases hNF : errors.Is err storage.ErrUserNotFound = true
  · rw [IsAdmin_of_notFound a userId w0 w1 flag err hQ hNF] at h
    exact ⟨ErrInvalidCredentials, (Option.some.inj h).symm⟩
  · cases err with
    | some c =>
      rw [IsAdmin_of_error a userId w0 w1 flag c hQ (by simpa using hNF)] at h
      exact ⟨c, (Option.some.inj h).symm⟩
    | none =>
      rw [IsAdmin_of_flag a userId w0 w1 flag hQ] at h
      exact absurd h (by simp)

end services.auth

/-! ## What the adapter answers over the domain service -/

namespace grpc.auth

/-- Over the domain service, a valid `Register` request whose `SaveUser`
reports `storage.ErrUserExists` is answered with `Internal`: the handler
tests for `storage.ErrUserExists`, and the domain service has replaced it by
`auth.ErrUserExists`. -/
theorem Register_of_duplicate {σ : Type} (a : services.auth.Auth σ)
    (req : ssov1.RegisterRequest) (w0 w1 w2 : σ) (passHash : List Nat) (uid : Int)
    (err : Option GoError)
    (hv : validateRegister req = none)
    (hG : a.bcrypt.GenerateFromPassword req.Password bcrypt.DefaultCost w0
      = ((passHash, none), w1))
    (hS : a.userSaver.SaveUser req.Email passHash w1 = ((uid, err), w2))
    (hE : errors.Is err storage.ErrUserExists = true) :
    (serverApi.mk (ofService a)).Register req w0
      = ((none, some ⟨codes.Code.Internal, "internal error "⟩), w2) :=
  Register_of_otherError (serverApi.mk (ofService a)) req w0 w2 0 _ hv
    (services.auth.RegisterNewUser_of_exists a req.Email req.Password w0 w1 w2 passHash uid err
      hG hS hE) rfl

/-- Over the domain service, a valid `IsAdmin` request for which the store
reports `storage.ErrUserNotFound` is answered with `Internal`: the handler
tests for `storage.ErrUserNotFound`, and the domain service has replaced it by
`ErrInvalidCredentials`. -/
theorem IsAdmin_of_unknownUser {σ : Type} (a : services.auth.Auth σ)
    (req : ssov1.IsAdminRequest) (w0 w1 : σ) (flag : Bool) (err : Option GoError)
    (hv : validateIsAdmin req = none)
    (hQ : a.userProvider.IsAdmin req.UserId w0 = ((flag, err), w1))
    (hNF : errors.Is err storage.ErrUserNotFound = true) :
    (serverApi.mk (ofService a)).IsAdmin req w0
      = ((none, some ⟨codes.Code.Internal, "internal error "⟩), w1) :=
  IsAdmin_of_otherError (serverApi.mk (ofService a)) req w0 w1 false _ hv
    (services.auth.IsAdmin_of_notFound a req.UserId w0 w1 flag err hQ hNF) rfl

end grpc.auth

/-! ## The in-memory instance meets the storage contract -/

namespace fixture

/-- The store of the instance holds a hash under an email exactly when the
first record with that email in the user table has that hash. -/
theorem holds_iff (email : String) (passHash : List Nat) (w : World) :
    services.auth.Holds svc email passHash w ↔
      ∃ user : models.User, w.users.find? (fun u => u.Email == email) = some user ∧
        user.Email = email ∧ user.PassHash = passHash := by
  unfold services.auth.Holds
  simp only [svc, User]
  constructor
  · rintro ⟨user, w2, h, hE, hP⟩
    cases hf : w.users.find? (fun u => u.Email == email) with
    | none => rw [hf] at h; simp at h
    | some u =>
      rw [hf] at h
      simp only [Prod.mk.injEq] at h
      obtain ⟨⟨rfl, _⟩, _⟩ := h
      exact ⟨u, rfl, hE, hP⟩
  · rintro ⟨user, hf, hE, hP⟩
    rw [hf]
    exact ⟨user, _, rfl, hE, hP⟩

/-- The in-memory store returns what `SaveUser` stored. -/
theorem svc_StoresUsers : services.auth.StoresUsers svc := by
  intro email passHash uid w w1 h
  simp only [svc, SaveUser] at h
  split at h
  · simp at h
  · simp only [Prod.mk.injEq] at h
    obtain ⟨⟨_, _⟩, rfl⟩ := h
    rw [holds_iff]
    exact ⟨⟨w.users.length + 1, email, passHash⟩, by simp, rfl, rfl⟩

/-- The in-memory store keeps what it holds: `SaveUser` refuses a taken email
and puts a new record in front of the others, and no other call changes the
user table. -/
theorem svc_KeepsUsers : services.auth.KeepsUsers svc := by
  intro email passHash w h
  rw [holds_iff] at h
  obtain ⟨user, hf, hE, hP⟩ := h
  refine ⟨?_, ?_, ?_, ?_, ?_, ?_⟩
  · intro e h2
    rw [holds_iff]
    simp only [svc, SaveUser]
    split
    · exact ⟨user, hf, hE, hP⟩
    · rename_i hany
      refine ⟨user, ?_, hE, hP⟩
      have hne : (e == email) = false := by
        cases hb : (e == email) with
        | false => rfl
        | true =>
          exfalso
          apply hany
          have he : e = email := by simpa using hb
          subst he
          exact List.any_eq_true.mpr ⟨user, List.mem_of_find?_eq_some hf, by simp [hE]⟩
      simp [List.find?_cons, hne, hf]
  · intro e
    rw [holds_iff]
    simp only [svc, User]
    split <;> exact ⟨user, hf, hE, hP⟩
  · intro u
    rw [holds_iff]
    simp only [svc, IsAdmin]
    split <;> exact ⟨user, hf, hE, hP⟩
  · intro i
    rw [holds_iff]
    simp only [svc, App]
    split <;> exact ⟨user, hf, hE, hP⟩
  · intro p c
    rw [holds_iff]
    simp only [svc, hasher]
    split <;> exact ⟨user, hf, hE, hP⟩
  · intro u p t
    rw [holds_iff]
    exact ⟨user, hf, hE, hP⟩

/-- The stand-in hasher verifies the password that was hashed. -/
theorem svc_HasherComplete : services.auth.HasherComplete svc := by
  intro password cost passHash w w1 h
  simp only [svc, hasher] at h
  split at h
  · simp at h
  · simp only [Prod.mk.injEq] at h
    obtain ⟨⟨rfl, _⟩, _⟩ := h
    simp [svc, hasher]

/-- The in-memory app table has the app 1. -/
theorem svc_FindsApp : services.auth.FindsApp svc 1 := by
  intro w
  exact ⟨⟨1, "test", "secret"⟩, _, rfl⟩

end fixture

/-! ## The claims -/

open services.auth grpc.auth

/-- Claim C1. `Login` does not tell an unknown email from a wrong password.
Take one run in which the lookup reports `storage.ErrUserNotFound` and another
in which the lookup returns a user whose stored hash does not verify against
the supplied password. Both return the empty token and the very same error
value: it is `ErrInvalidCredentials` for `errors.Is`, and its text is the same
in both runs. For requests that pass validation the adapter answers both runs
with the same code and the same message. -/
theorem C1_login_unknown_user_and_wrong_password_alike {σ : Type}
    (a1 a2 : services.auth.Auth σ)
    (email1 password1 : String) (appID1 : Int) (w1 v1 : σ)
    (user1 : models.User) (err1 : Option GoError)
    (email2 password2 : String) (appID2 : Int) (w2 v2 : σ) (user2 : models.User)
    (hU1 : a1.userProvider.User email1 w1 = ((user1, err1), v1))
    (hNotFound : errors.Is err1 storage.ErrUserNotFound = true)
    (hU2 : a2.userProvider.User email2 w2 = ((user2, none), v2))
    (hWrong : a2.bcrypt.CompareHashAndPassword user2.PassHash password2 ≠ none) :
    a1.Login email1 password1 appID1 w1
        = (("", some (fmt.Errorf "op" ErrInvalidCredentials)), v1) ∧
    a2.Login email2 password2 appID2 w2
        = (("", some (fmt.Errorf "op" ErrInvalidCredentials)), v2) ∧
    errors.Is (some (fmt.Errorf "op" ErrInvalidCredentials)) ErrId.authErrInvalidCredentials
        = true ∧
    (fmt.Errorf "op" ErrInvalidCredentials).Error = "op: invalid credentials" ∧
    (validateLogin ⟨email1, password1, appID1⟩ = none →
      (serverApi.mk (ofService a1)).Login ⟨email1, password1, appID1⟩ w1
        = ((none, some ⟨codes.Code.InvalidArgument, "invalid credentialsv"⟩), v1)) ∧
    (validateLogin ⟨email2, password2, appID2⟩ = none →
      (serverApi.mk (ofService a2)).Login ⟨email2, password2, appID2⟩ w2
        = ((none, some ⟨codes.Code.InvalidArgument, "invalid credentialsv"⟩), v2)) := by
  have h1 := Login_of_notFound a1 email1 password1 appID1 w1 v1 user1 err1 hU1 hNotFound
  have h2 := Login_of_mismatch a2 email2 password2 appID2 w2 v2 user2 hU2 hWrong
  refine ⟨h1, h2, rfl, rfl, ?_, ?_⟩
  · intro hv
    exact Login_of_invalidCredentials _ _ w1 v1 "" _ hv h1 rfl
  · intro hv
    exact Login_of_invalidCredentials _ _ w2 v2 "" _ hv h2 rfl

/-- Witness for C1 on the in-memory instance, after `a@x.com` registered with
`pw123`: a login for the unknown `b@x.com` and a login for `a@x.com` with the
password `wrong` return the same pair, and the adapter answers both with
`InvalidArgument` and the same message. -/
theorem C1_login_unknown_user_and_wrong_password_alike_witness :
    (fixture.svc.Login "b@x.com" "pw123" 1 fixture.w1).1
        = (fixture.svc.Login "a@x.com" "wrong" 1 fixture.w1).1 ∧
    (fixture.api.Login ⟨"b@x.com", "pw123", 1⟩ fixture.w1).1
        = (none, some ⟨codes.Code.InvalidArgument, "invalid credentialsv"⟩) ∧
    (fixture.api.Login ⟨"a@x.com", "wrong", 1⟩ fixture.w1).1
        = (none, some ⟨codes.Code.InvalidArgument, "invalid credentialsv"⟩) := by
  have h := C1_login_unknown_user_and_wrong_password_alike fixture.svc fixture.svc
    "b@x.com" "pw123" 1 fixture.w1 (fixture.User "b@x.com" fixture.w1).2
    (fixture.User "b@x.com" fixture.w1).1.1 (some fixture.notFound)
    "a@x.com" "wrong" 1 fixture.w1 (fixture.User "a@x.com" fixture.w1).2
    (fixture.User "a@x.com" fixture.w1).1.1
    rfl (by decide) rfl (by decide)
  refine ⟨?_, ?_, ?_⟩
  · rw [h.1, h.2.1]
  · exact congrArg Prod.fst (h.2.2.2.2.1 (by decide))
  · exact congrArg Prod.fst (h.2.2.2.2.2 (by decide))

/-- Claim C5, refuted as stated. A `SaveUser` that fails with an error other
than `storage.ErrUserExists`, here the value `auth.ErrUserExists` itself, makes
`RegisterNewUser` return ID 0 and an error wrapping that cause which is the
domain AlreadyExists error for `errors.Is`. -/
theorem C5_other_error_can_be_already_exists :
    errors.Is (some services.auth.ErrUserExists) storage.ErrUserExists = false ∧
    ((fixture.svcSaveFails services.auth.ErrUserExists).RegisterNewUser
        "a@x.com" "pw123" fixture.w0).1
      = (0, some (fmt.Errorf "services.auth.RegisterNewUser" services.auth.ErrUserExists)) ∧
    errors.Is ((fixture.svcSaveFails services.auth.ErrUserExists).RegisterNewUser
        "a@x.com" "pw123" fixture.w0).1.2 ErrId.authErrUserExists = true := by
  decide

/-- Claim C5, amended. When hashing succeeds, `RegisterNewUser` maps the
outcome of `SaveUser` as follows. If it reports `storage.ErrUserExists` the
result is ID 0 and an error that is `auth.ErrUserExists`. If it reports any
other error the result is ID 0 and an error wrapping that cause, and this
error is `auth.ErrUserExists` exactly when the cause already is; so it is not
AlreadyExists for every cause that is not. If it succeeds with ID `uid` the
result is `uid` with no error. -/
theorem C5_register_maps_save_outcome {σ : Type} (a : services.auth.Auth σ)
    (email password : String) (w0 w1 w2 : σ) (passHash : List Nat)
    (uid : Int) (err : Option GoError)
    (hG : a.bcrypt.GenerateFromPassword password bcrypt.DefaultCost w0 = ((passHash, none), w1))
    (hS : a.userSaver.SaveUser email passHash w1 = ((uid, err), w2)) :
    (errors.Is err storage.ErrUserExists = true →
      a.RegisterNewUser email password w0
        = ((0, some (fmt.Errorf "services.auth.RegisterNewUser" ErrUserExists)), w2) ∧
      errors.Is (some (fmt.Errorf "services.auth.RegisterNewUser" ErrUserExists))
        ErrId.authErrUserExists = true) ∧
    (∀ e : GoError, err = some e → errors.Is (some e) storage.ErrUserExists = false →
      a.RegisterNewUser email password w0
        = ((0, some (fmt.Errorf "services.auth.RegisterNewUser" e)), w2) ∧
      (fmt.Errorf "services.auth.RegisterNewUser" e).Unwrap = some e ∧
      errors.Is (some (fmt.Errorf "services.auth.RegisterNewUser" e)) ErrId.authErrUserExists
        = errors.Is (some e) ErrId.authErrUserExists ∧
      (errors.Is (some e) ErrId.authErrUserExists = false →
        errors.Is (a.RegisterNewUser email password w0).1.2 ErrId.authErrUserExists = false)) ∧
    (err = none → a.RegisterNewUser email password w0 = ((uid, none), w2)) := by
  refine ⟨?_, ?_, ?_⟩
  · intro hE
    exact ⟨RegisterNewUser_of_exists a email password w0 w1 w2 passHash uid err hG hS hE, rfl⟩
  · intro e he hE
    subst he
    have h := RegisterNewUser_of_saveError a email password w0 w1 w2 passHash uid e hG hS hE
    refine ⟨h, rfl, rfl, ?_⟩
    intro hne
    rw [h]
    exact hne
  · intro he
    subst he
    exact RegisterNewUser_of_saved a email password w0 w1 w2 passHash uid hG hS

/-- Witness for C5 on the in-memory instance. Registering a taken email gives
ID 0 and `auth.ErrUserExists`; a store failing with a disk error gives ID 0 and
that error wrapped, which is not AlreadyExists; a fresh email gives ID 1. -/
theorem C5_register_maps_save_outcome_witness :
    (fixture.svc.RegisterNewUser "a@x.com" "pw456" fixture.w1).1
      = (0, some (fmt.Errorf "services.auth.RegisterNewUser" services.auth.ErrUserExists)) ∧
    ((fixture.svcSaveFails fixture.diskFailure).RegisterNewUser "a@x.com" "pw123" fixture.w0).1
      = (0, some (fmt.Errorf "services.auth.RegisterNewUser" fixture.diskFailure)) ∧
    errors.Is ((fixture.svcSaveFails fixture.diskFailure).RegisterNewUser
        "a@x.com" "pw123" fixture.w0).1.2 ErrId.authErrUserExists = false ∧
    (fixture.svc.RegisterNewUser "a@x.com" "pw123" fixture.w0).1 = (1, none) := by
  have hDup := C5_register_maps_save_outcome fixture.svc "a@x.com" "pw456"
    fixture.w1 fixture.w1 (fixture.SaveUser "a@x.com" (fixture.hash "pw456") fixture.w1).2
    (fixture.hash "pw456") 0 (some fixture.alreadyExists) rfl rfl
  have hDisk := C5_register_maps_save_outcome (fixture.svcSaveFails fixture.diskFailure)
    "a@x.com" "pw123" fixture.w0 fixture.w0
    ({ fixture.w0 with calls := 1 }) (fixture.hash "pw123") 0 (some fixture.diskFailure) rfl rfl
  have hNew := C5_register_maps_save_outcome fixture.svc "a@x.com" "pw123"
    fixture.w0 fixture.w0 (fixture.SaveUser "a@x.com" (fixture.hash "pw123") fixture.w0).2
    (fixture.hash "pw123") 1 none rfl rfl
  refine ⟨?_, ?_, ?_, ?_⟩
  · exact congrArg Prod.fst (hDup.1 (by decide)).1
  · exact congrArg Prod.fst (hDisk.2.1 _ rfl (by decide)).1
  · exact (hDisk.2.1 _ rfl (by decide)).2.2.2 (by decide)
  · exact congrArg Prod.fst (hNew.2.2 rfl)

/-- Claim C6. `IsAdmin` maps the outcome of `UserProvider.IsAdmin` as
follows. If the store reports `storage.ErrUserNotFound` the result is `false`
and an error that is `ErrInvalidCredentials` and is not the storage not-found
error. If the store reports any other error the result is `false` and an
error wrapping that cause. If the store returns a flag with no error the
result is that flag with no error. -/
theorem C6_isAdmin_maps_store_outcome {σ : Type} (a : services.auth.Auth σ) (userId : Int)
    (w0 w1 : σ) (flag : Bool) (err : Option GoError)
    (hQ : a.userProvider.IsAdmin userId w0 = ((flag, err), w1)) :
    (errors.Is err storage.ErrUserNotFound = true →
      a.IsAdmin userId w0
        = ((false, some (fmt.Errorf "servies.auth.IsAdmin" ErrInvalidCredentials)), w1) ∧
      errors.Is (a.IsAdmin userId w0).1.2 ErrId.authErrInvalidCredentials = true ∧
      errors.Is (a.IsAdmin userId w0).1.2 storage.ErrUserNotFound = false) ∧
    (∀ e : GoError, err = some e → errors.Is (some e) storage.ErrUserNotFound = false →
      a.IsAdmin userId w0 = ((false, some (fmt.Errorf "servies.auth.IsAdmin" e)), w1) ∧
      (fmt.Errorf "servies.auth.IsAdmin" e).Unwrap = some e) ∧
    (err = none → a.IsAdmin userId w0 = ((flag, none), w1)) := by
  refine ⟨?_, ?_, ?_⟩
  · intro hNF
    have h := IsAdmin_of_notFound a userId w0 w1 flag err hQ hNF
    refine ⟨h, ?_, ?_⟩ <;> rw [h] <;> rfl
  · intro e he hNF
    subst he
    exact ⟨IsAdmin_of_error a userId w0 w1 flag e hQ hNF, rfl⟩
  · intro he
    subst he
    exact IsAdmin_of_flag a userId w0 w1 flag hQ

/-- Witness for C6 on the in-memory instance, after `a@x.com` registered as
user 1 and is no admin: `IsAdmin(1)` is `false` with no error, `IsAdmin(7)` for
the unknown user 7 is `false` with `ErrInvalidCredentials`, and a store failing
with a disk error gives `false` with that error wrapped. -/
theorem C6_isAdmin_maps_store_outcome_witness :
    (fixture.svc.IsAdmin 1 fixture.w1).1 = (false, none) ∧
    (fixture.svc.IsAdmin 7 fixture.w1).1
      = (false, some (fmt.Errorf "servies.auth.IsAdmin" services.auth.ErrInvalidCredentials)) ∧
    ((fixture.svcIsAdminFails fixture.diskFailure).IsAdmin 1 fixture.w1).1
      = (false, some (fmt.Errorf "servies.auth.IsAdmin" fixture.diskFailure)) := by
  have hOk := C6_isAdmin_maps_store_outcome fixture.svc 1 fixture.w1
    (fixture.IsAdmin 1 fixture.w1).2 false none rfl
  have hNF := C6_isAdmin_maps_store_outcome fixture.svc 7 fixture.w1
    (fixture.IsAdmin 7 fixture.w1).2 false (some fixture.notFound) rfl
  have hDisk := C6_isAdmin_maps_store_outcome (fixture.svcIsAdminFails fixture.diskFailure) 1
    fixture.w1 ({ fixture.w1 with calls := fixture.w1.calls + 1 }) false
    (some fixture.diskFailure) rfl
  refine ⟨?_, ?_, ?_⟩
  · exact congrArg Prod.fst (hOk.2.2 rfl)
  · exact congrArg Prod.fst (hNF.1 (by decide)).1
  · exact congrArg Prod.fst (hDisk.2.1 _ rfl (by decide)).1

/-- Claim C7. Validation accepts exactly the requests whose required fields
are present. `validateLogin` returns nil if and only if email and password are
non-empty and the app ID is non-zero; `validateRegister` if and only if email
and password are non-empty; `validateIsAdmin` if and only if the user ID is
non-zero. Every rejection has the code `InvalidArgument`, and its message
names the first missing field in the order email, password, app (user id for
`validateIsAdmin`). -/
theorem C7_validation_accepts_exactly_complete_requests :
    (∀ req : ssov1.LoginRequest,
      (validateLogin req = none ↔ req.Email ≠ "" ∧ req.Password ≠ "" ∧ req.AppId ≠ 0) ∧
      (∀ st, validateLogin req = some st → st.code = codes.Code.InvalidArgument) ∧
      (req.Email = "" →
        validateLogin req = some ⟨codes.Code.InvalidArgument, "email is required"⟩) ∧
      (req.Email ≠ "" → req.Password = "" →
        validateLogin req = some ⟨codes.Code.InvalidArgument, "password is required"⟩) ∧
      (req.Email ≠ "" → req.Password ≠ "" → req.AppId = 0 →
        validateLogin req = some ⟨codes.Code.InvalidArgument, "app is required"⟩)) ∧
    (∀ req : ssov1.RegisterRequest,
      (validateRegister req = none ↔ req.Email ≠ "" ∧ req.Password ≠ "") ∧
      (∀ st, validateRegister req = some st → st.code = codes.Code.InvalidArgument) ∧
      (req.Email = "" →
        validateRegister req = some ⟨codes.Code.InvalidArgument, "email is required"⟩) ∧
      (req.Email ≠ "" → req.Password = "" →
        validateRegister req = some ⟨codes.Code.InvalidArgument, "password is required"⟩)) ∧
    (∀ req : ssov1.IsAdminRequest,
      (validateIsAdmin req = none ↔ req.UserId ≠ 0) ∧
      (∀ st, validateIsAdmin req = some st → st.code = codes.Code.InvalidArgument) ∧
      (req.UserId = 0 →
        validateIsAdmin req = some ⟨codes.Code.InvalidArgument, "user id is required"⟩)) := by
  refine ⟨?_, ?_, ?_⟩
  · intro req
    by_cases hE : req.Email = "" <;> by_cases hP : req.Password = "" <;>
      by_cases hA : req.AppId = 0 <;>
      simp [validateLogin, emptyValue, status.Error, hE, hP, hA]
  · intro req
    by_cases hE : req.Email = "" <;> by_cases hP : req.Password = "" <;>
      simp [validateRegister, status.Error, hE, hP]
  · intro req
    by_cases hU : req.UserId = 0 <;>
      simp [validateIsAdmin, status.Error, hU]

/-- Witness for C7 on concrete requests: a complete login request is accepted,
and requests missing the email, the password, the app or the user ID are
rejected with the message of the first missing field. -/
theorem C7_validation_accepts_exactly_complete_requests_witness :
    validateLogin ⟨"a@x.com", "pw123", 1⟩ = none ∧
    validateLogin ⟨"", "", 0⟩ = some ⟨codes.Code.InvalidArgument, "email is required"⟩ ∧
    validateLogin ⟨"a@x.com", "", 0⟩
      = some ⟨codes.Code.InvalidArgument, "password is required"⟩ ∧
    validateLogin ⟨"a@x.com", "pw123", 0⟩
      = some ⟨codes.Code.InvalidArgument, "app is required"⟩ ∧
    validateRegister ⟨"a@x.com", ""⟩
      = some ⟨codes.Code.InvalidArgument, "password is required"⟩ ∧
    validateIsAdmin ⟨0⟩ = some ⟨codes.Code.InvalidArgument, "user id is required"⟩ := by
  have h := C7_validation_accepts_exactly_complete_requests
  refine ⟨?_, ?_, ?_, ?_, ?_, ?_⟩
  · exact (h.1 ⟨"a@x.com", "pw123", 1⟩).1.mpr (by decide)
  · exact (h.1 ⟨"", "", 0⟩).2.2.1 rfl
  · exact (h.1 ⟨"a@x.com", "", 0⟩).2.2.2.1 (by decide) rfl
  · exact (h.1 ⟨"a@x.com", "pw123", 0⟩).2.2.2.2 (by decide) (by decide) rfl
  · exact (h.2.1 ⟨"a@x.com", ""⟩).2.2.2 (by decide) rfl
  · exact (h.2.2 ⟨0⟩).2.2 rfl

/-- Claim C8. Validation short-circuits the domain service. For each of the
handlers `Login`, `Register` and `IsAdmin`, over any implementation of the
domain service and from any state of the world, a request that fails the
handler's validation is answered with the validation error and no response,
and the world is left exactly as it was: no call reached the domain service,
hence none reached storage. -/
theorem C8_validation_short_circuits {σ : Type} (s : serverApi σ) (w0 : σ) :
    (∀ (req : ssov1.LoginRequest) (st : status.Status),
      validateLogin req = some st → s.Login req w0 = ((none, some st), w0)) ∧
    (∀ (req : ssov1.RegisterRequest) (st : status.Status),
      validateRegister req = some st → s.Register req w0 = ((none, some st), w0)) ∧
    (∀ (req : ssov1.IsAdminRequest) (st : status.Status),
      validateIsAdmin req = some st → s.IsAdmin req w0 = ((none, some st), w0)) :=
  ⟨fun req st hv => Login_of_invalid s req w0 st hv,
   fun req st hv => Register_of_invalid s req w0 st hv,
   fun req st hv => IsAdmin_of_invalid s req w0 st hv⟩

/-- Witness for C8 on the in-memory instance, whose world counts the calls
made to the storage ports: `Login("", "x", 1)` fails with `InvalidArgument`
citing the email and the counter of storage calls is still 0. -/
theorem C8_validation_short_circuits_witness :
    fixture.api.Login ⟨"", "x", 1⟩ fixture.w0
      = ((none, some ⟨codes.Code.InvalidArgument, "email is required"⟩), fixture.w0) ∧
    (fixture.api.Login ⟨"", "x", 1⟩ fixture.w0).2.calls = 0 := by
  have h := (C8_validation_short_circuits fixture.api fixture.w0).1 ⟨"", "x", 1⟩
    ⟨codes.Code.InvalidArgument, "email is required"⟩ rfl
  exact ⟨h, by rw [h]; rfl⟩

/-- Claim C9. Internal causes are not serialized into the wire response. For
each handler and every request that passes validation, whenever the domain
service returns an error that the handler does not recognise as its mapped
condition, the handler answers with the code `Internal` and the fixed message
`internal error ` (with the trailing blank of the source). The answer does
not mention the cause, so two such errors with different causes and texts
give the same code and message. -/
theorem C9_unmapped_errors_give_fixed_internal_status {σ : Type}
    (s1 s2 : serverApi σ) (w1 v1 w2 v2 : σ) (e1 e2 : GoError) :
    (∀ (req1 req2 : ssov1.LoginRequest) (t1 t2 : String),
      validateLogin req1 = none → validateLogin req2 = none →
      s1.auth.Login req1.Email req1.Password req1.AppId w1 = ((t1, some e1), v1) →
      s2.auth.Login req2.Email req2.Password req2.AppId w2 = ((t2, some e2), v2) →
      errors.Is (some e1) ErrId.authErrInvalidCredentials = false →
      errors.Is (some e2) ErrId.authErrInvalidCredentials = false →
      (s1.Login req1 w1).1 = (none, some ⟨codes.Code.Internal, "internal error "⟩) ∧
      (s2.Login req2 w2).1 = (s1.Login req1 w1).1) ∧
    (∀ (req1 req2 : ssov1.RegisterRequest) (u1 u2 : Int),
      validateRegister req1 = none → validateRegister req2 = none →
      s1.auth.RegisterNewUser req1.Email req1.Password w1 = ((u1, some e1), v1) →
      s2.auth.RegisterNewUser req2.Email req2.Password w2 = ((u2, some e2), v2) →
      errors.Is (some e1) storage.ErrUserExists = false →
      errors.Is (some e2) storage.ErrUserExists = false →
      (s1.Register req1 w1).1 = (none, some ⟨codes.Code.Internal, "internal error "⟩) ∧
      (s2.Register req2 w2).1 = (s1.Register req1 w1).1) ∧
    (∀ (req1 req2 : ssov1.IsAdminRequest) (b1 b2 : Bool),
      validateIsAdmin req1 = none → validateIsAdmin req2 = none →
      s1.auth.IsAdmin req1.UserId w1 = ((b1, some e1), v1) →
      s2.auth.IsAdmin req2.UserId w2 = ((b2, some e2), v2) →
      errors.Is (some e1) storage.ErrUserNotFound = false →
      errors.Is (some e2) storage.ErrUserNotFound = false →
      (s1.IsAdmin req1 w1).1 = (none, some ⟨codes.Code.Internal, "internal error "⟩) ∧
      (s2.IsAdmin req2 w2).1 = (s1.IsAdmin req1 w1).1) := by
  refine ⟨?_, ?_, ?_⟩
  · intro req1 req2 t1 t2 hv1 hv2 h1 h2 hn1 hn2
    rw [Login_of_otherError s1 req1 w1 v1 t1 e1 hv1 h1 hn1,
      Login_of_otherError s2 req2 w2 v2 t2 e2 hv2 h2 hn2]
    exact ⟨rfl, rfl⟩
  · intro req1 req2 u1 u2 hv1 hv2 h1 h2 hn1 hn2
    rw [Register_of_otherError s1 req1 w1 v1 u1 e1 hv1 h1 hn1,
      Register_of_otherError s2 req2 w2 v2 u2 e2 hv2 h2 hn2]
    exact ⟨rfl, rfl⟩
  · intro req1 req2 b1 b2 hv1 hv2 h1 h2 hn1 hn2
    rw [IsAdmin_of_otherError s1 req1 w1 v1 b1 e1 hv1 h1 hn1,
      IsAdmin_of_otherError s2 req2 w2 v2 b2 e2 hv2 h2 hn2]
    exact ⟨rfl, rfl⟩

/-- Witness for C9 on the in-memory instance: a store failing with a disk
error and a store failing with a lock timeout make the domain `Login` return
errors with different texts, and the adapter answers both with `Internal` and
the same message. -/
theorem C9_unmapped_errors_give_fixed_internal_status_witness :
    (((fixture.svcUserFails fixture.diskFailure).Login "a@x.com" "pw123" 1 fixture.w1).1.2.map
        GoError.Error) = some "op: disk I/O error" ∧
    (((fixture.svcUserFails fixture.lockTimeout).Login "a@x.com" "pw123" 1 fixture.w1).1.2.map
        GoError.Error) = some "op: storage: database is locked" ∧
    ((serverApi.mk (ofService (fixture.svcUserFails fixture.diskFailure))).Login
        ⟨"a@x.com", "pw123", 1⟩ fixture.w1).1
      = (none, some ⟨codes.Code.Internal, "internal error "⟩) ∧
    ((serverApi.mk (ofService (fixture.svcUserFails fixture.lockTimeout))).Login
        ⟨"a@x.com", "pw123", 1⟩ fixture.w1).1
      = ((serverApi.mk (ofService (fixture.svcUserFails fixture.diskFailure))).Login
        ⟨"a@x.com", "pw123", 1⟩ fixture.w1).1 := by
  have h := (C9_unmapped_errors_give_fixed_internal_status
    (serverApi.mk (ofService (fixture.svcUserFails fixture.diskFailure)))
    (serverApi.mk (ofService (fixture.svcUserFails fixture.lockTimeout)))
    fixture.w1 ({ fixture.w1 with calls := fixture.w1.calls + 1 })
    fixture.w1 ({ fixture.w1 with calls := fixture.w1.calls + 1 })
    (fmt.Errorf "op" fixture.diskFailure) (fmt.Errorf "op" fixture.lockTimeout)).1
    ⟨"a@x.com", "pw123", 1⟩ ⟨"a@x.com", "pw123", 1⟩ "" ""
    (by decide) (by decide) rfl rfl (by decide) (by decide)
  exact ⟨by decide, by decide, h.1, h.2⟩

/-- Claim C2, refuted as stated. On the in-memory instance the hasher keeps
the key preparation of bcrypt and verifies every password it hashed. After
`a@x.com` registered with the password `pw`, a login with the other password
`pw`, NUL, `pw` does not fail with `ErrInvalidCredentials`: both passwords
give the same cycled key, the stored hash verifies, and `Login` returns the
token with no error. -/
theorem C2_other_password_can_log_in :
    fixture.svc.RegisterNewUser "a@x.com" "pw" fixture.w0
      = ((1, none), (fixture.svc.RegisterNewUser "a@x.com" "pw" fixture.w0).2) ∧
    fixture.hasher.CompareHashAndPassword (fixture.hash "pw") "pw" = none ∧
    "pw\x00pw" ≠ "pw" ∧
    (fixture.svc.Login "a@x.com" "pw\x00pw" 1
        (fixture.svc.RegisterNewUser "a@x.com" "pw" fixture.w0).2).1
      = ("jwt.a@x.com.test", none) ∧
    errors.Is (fixture.svc.Login "a@x.com" "pw\x00pw" 1
        (fixture.svc.RegisterNewUser "a@x.com" "pw" fixture.w0).2).1.2
      ErrId.authErrInvalidCredentials = false := by
  decide

/-- Claim C2, amended. Over a store in which `SaveUser` stores the hash under
the email, `User` returns it and later calls keep it, a hasher that verifies a
hash against the password that produced it, and an `AppProvider` that finds
`validAppID`: after `RegisterNewUser(email, password)` has succeeded, and
after any further calls `ops` of the service, the lookup of `email` gives a
stored user whose email is the registered one and whose hash verifies against
`password`, and `Login(email, password, validAppID)` returns exactly what the
token issuer produces for that user, that app and the configured TTL: its
token with no error, or, should the issuer fail, the empty token and the
issuer's error annotated. `Login(email, other, appID)` fails with the empty
token and an error that is `ErrInvalidCredentials` for every password `other`
against which the stored hash does not verify; a password against which it
does verify is treated as `password` is. -/
theorem C2_login_after_register {σ : Type} (a : services.auth.Auth σ)
    (email password : String) (validAppID uid : Int) (w0 w1 : σ) (ops : List Op)
    (hStore : StoresUsers a) (hKeep : KeepsUsers a) (hHash : HasherComplete a)
    (hApp : FindsApp a validAppID)
    (hReg : a.RegisterNewUser email password w0 = ((uid, none), w1)) :
    ∃ (user : models.User) (app : models.App) (w2 w3 : σ),
      a.userProvider.User email (run a ops w1) = ((user, none), w2) ∧
      user.Email = email ∧
      a.bcrypt.CompareHashAndPassword user.PassHash password = none ∧
      a.appProvider.App validAppID w2 = ((app, none), w3) ∧
      (∀ (token : String) (w4 : σ),
        a.jwt.NewToken user app a.tokenTTL w3 = ((token, none), w4) →
        a.Login email password validAppID (run a ops w1) = ((token, none), w4)) ∧
      (∀ (token : String) (e : GoError) (w4 : σ),
        a.jwt.NewToken user app a.tokenTTL w3 = ((token, some e), w4) →
        a.Login email password validAppID (run a ops w1)
          = (("", some (fmt.Errorf "services.auth.Login" e)), w4)) ∧
      (∀ (other : String) (appID : Int),
        a.bcrypt.CompareHashAndPassword user.PassHash other ≠ none →
        a.Login email other appID (run a ops w1)
          = (("", some (fmt.Errorf "op" ErrInvalidCredentials)), w2) ∧
        errors.Is (a.Login email other appID (run a ops w1)).1.2
          ErrId.authErrInvalidCredentials = true) ∧
      (∀ (other : String) (appID : Int),
        a.bcrypt.CompareHashAndPassword user.PassHash other = none →
        a.Login email other appID (run a ops w1)
          = a.Login email password appID (run a ops w1)) := by
  obtain ⟨ph, wg, hG, hS⟩ := RegisterNewUser_inv a email password w0 w1 uid hReg
  have hOk := hHash password bcrypt.DefaultCost ph w0 wg hG
  obtain ⟨user, w2, hU, hEmail, hPH⟩ :=
    Holds_run a hKeep email ph ops w1 (hStore email ph uid wg w1 hS)
  obtain ⟨app, w3, hA⟩ := hApp w2
  subst hPH
  refine ⟨user, app, w2, w3, hU, hEmail, hOk, hA, ?_, ?_, ?_, ?_⟩
  · intro token w4 hT
    exact Login_of_token a email password validAppID _ w2 w3 w4 user app token hU hOk hA hT
  · intro token e w4 hT
    exact Login_of_tokenError a email password validAppID _ w2 w3 w4 user app token e
      hU hOk hA hT
  · intro other appID hne
    have h := Login_of_mismatch a email other appID _ w2 user hU hne
    refine ⟨h, ?_⟩
    rw [h]
    rfl
  · intro other appID hv
    exact Login_of_verifies a email password other appID _ w2 user hU hOk hv

/-- Witness for C2 on the in-memory instance: registering `a@x.com` with
`pw123` gives user 1; then, after a registration of `b@x.com`, a failed login
and an admin lookup, `Login("a@x.com", "pw123", 1)` gives the non-empty token
issued for that email, and `Login("a@x.com", "wrong", 1)` gives the empty
token and `ErrInvalidCredentials`. -/
theorem C2_login_after_register_witness :
    fixture.svc.RegisterNewUser "a@x.com" "pw123" fixture.w0 = ((1, none), fixture.w1) ∧
    (fixture.svc.Login "a@x.com" "pw123" 1 (run fixture.svc
        [Op.register "b@x.com" "pw9", Op.login "a@x.com" "bad" 1, Op.isAdmin 1] fixture.w1)).1
      = ("jwt.a@x.com.test", none) ∧
    (fixture.svc.Login "a@x.com" "pw123" 1 fixture.w1).1 = ("jwt.a@x.com.test", none) ∧
    (fixture.svc.Login "a@x.com" "pw123" 1 fixture.w1).1.1 ≠ "" ∧
    (fixture.svc.Login "a@x.com" "wrong" 1 fixture.w1).1
      = ("", some (fmt.Errorf "op" services.auth.ErrInvalidCredentials)) ∧
    errors.Is (fixture.svc.Login "a@x.com" "wrong" 1 fixture.w1).1.2
      ErrId.authErrInvalidCredentials = true := by
  have hLater := C2_login_after_register fixture.svc "a@x.com" "pw123" 1 1 fixture.w0 fixture.w1
    [Op.register "b@x.com" "pw9", Op.login "a@x.com" "bad" 1, Op.isAdmin 1]
    fixture.svc_StoresUsers fixture.svc_KeepsUsers fixture.svc_HasherComplete
    fixture.svc_FindsApp rfl
  obtain ⟨user, app, w2, w3, hU, hEmail, _, hA, hTok, _, hWrong, _⟩ :=
    C2_login_after_register fixture.svc "a@x.com" "pw123" 1 1 fixture.w0 fixture.w1 []
      fixture.svc_StoresUsers fixture.svc_KeepsUsers fixture.svc_HasherComplete
      fixture.svc_FindsApp rfl
  have hUser : user = ⟨1, "a@x.com", fixture.hash "pw123"⟩ :=
    (congrArg (fun r => r.1.1) hU).symm
  have hApp : app = ⟨1, "test", "secret"⟩ := (congrArg (fun r => r.1.1) hA).symm
  have hBad : fixture.svc.bcrypt.CompareHashAndPassword user.PassHash "wrong" ≠ none := by
    rw [hUser]
    decide
  refine ⟨rfl, ?_, ?_, by decide, ?_, ?_⟩
  · obtain ⟨user9, app9, v2, v3, hU9, _, _, hA9, hTok9, _, _, _⟩ := hLater
    have hUser9 : user9 = ⟨1, "a@x.com", fixture.hash "pw123"⟩ :=
      (congrArg (fun r => r.1.1) hU9).symm
    have hApp9 : app9 = ⟨1, "test", "secret"⟩ := (congrArg (fun r => r.1.1) hA9).symm
    rw [hTok9 _ _ rfl, hUser9, hApp9]
    rfl
  · have hT : fixture.svc.Login "a@x.com" "pw123" 1 fixture.w1
        = (("jwt." ++ user.Email ++ "." ++ app.Name, none), w3) := hTok _ _ rfl
    rw [hT, hUser, hApp]
    rfl
  · exact congrArg Prod.fst (hWrong "wrong" 1 hBad).1
  · exact (hWrong "wrong" 1 hBad).2

/-- Claim C3, the code at the failing input. On the in-memory instance, after
`a@x.com` registered, the request `Register("a@x.com", "pw456")` passes
validation, `SaveUser` reports `storage.ErrUserExists`, the domain service
fails with an error that is `auth.ErrUserExists`, and the handler answers with
the code `Internal`, not with `AlreadyExists`. -/
theorem C3_duplicate_register_answered_internal :
    validateRegister ⟨"a@x.com", "pw456"⟩ = none ∧
    errors.Is (fixture.SaveUser "a@x.com" (fixture.hash "pw456") fixture.w1).1.2
      storage.ErrUserExists = true ∧
    errors.Is (fixture.svc.RegisterNewUser "a@x.com" "pw456" fixture.w1).1.2
      ErrId.authErrUserExists = true ∧
    (fixture.api.Register ⟨"a@x.com", "pw456"⟩ fixture.w1).1
      = (none, some ⟨codes.Code.Internal, "internal error "⟩) ∧
    (fixture.api.Register ⟨"a@x.com", "pw456"⟩ fixture.w1).1.2.map status.Status.code
      ≠ some codes.Code.AlreadyExists := by
  decide

/-- Claim C4, the code at the failing input. On the in-memory instance, after
`a@x.com` registered as user 1, the request `IsAdmin(7)` for the unknown user
7 passes validation, the store reports `storage.ErrUserNotFound`, the domain
service fails with an error that is `ErrInvalidCredentials`, and the handler
answers with the code `Internal`, not with `InvalidArgument`. -/
theorem C4_unknown_user_admin_lookup_answered_internal :
    validateIsAdmin ⟨7⟩ = none ∧
    errors.Is (fixture.IsAdmin 7 fixture.w1).1.2 storage.ErrUserNotFound = true ∧
    errors.Is (fixture.svc.IsAdmin 7 fixture.w1).1.2 ErrId.authErrInvalidCredentials = true ∧
    (fixture.api.IsAdmin ⟨7⟩ fixture.w1).1
      = (none, some ⟨codes.Code.Internal, "internal error "⟩) ∧
    (fixture.api.IsAdmin ⟨7⟩ fixture.w1).1.2.map status.Status.code
      ≠ some codes.Code.InvalidArgument := by
  decide

/-- Claim C10, the code at the failing input. On the in-memory instance, after
`a@x.com` registered, `Login` for the unknown `b@x.com`, `Login` for `a@x.com`
with a wrong password, and `Login` over a store failing with a disk error each
return an error whose text begins with `op: `; the characters of
`services.auth.Login: ` are no beginning of these texts. -/
theorem C10_login_errors_annotated_with_literal_op :
    (fixture.svc.Login "b@x.com" "pw123" 1 fixture.w1).1.2.map GoError.Error
      = some "op: invalid credentials" ∧
    (fixture.svc.Login "a@x.com" "wrong" 1 fixture.w1).1.2.map GoError.Error
      = some "op: invalid credentials" ∧
    ((fixture.svcUserFails fixture.diskFailure).Login "a@x.com" "pw123" 1 fixture.w1).1.2.map
        GoError.Error = some "op: disk I/O error" ∧
    List.isPrefixOf "services.auth.Login: ".toList "op: invalid credentials".toList = false ∧
    List.isPrefixOf "services.auth.Login: ".toList "op: disk I/O error".toList = false := by
  decide

end SSO
